import Mathlib

/-
Verification of the zen3geo adapter layer: a shallow embedding of the
datapipe adapters in src/zen3geo/datapipes (datashader.py, geopandas.py,
pystac_client.py, xbatcher.py) together with proofs about their
construction-time validation, broadcast/zip iteration, CRS handling and
output normalization policies.

Conventions of the embedding:
- Lazy sequences (torchdata IterDataPipes) are modelled as Lists; the
  single-pass case relevant to broadcasting is modelled separately as a
  stream with an explicit cursor.
- Python exceptions are modelled with Except / explicit error inductives.
- External library calls (the datashader burn engine, rioxarray re-gridding,
  geopandas to_crs / clip, the xbatcher window generator, the pystac client)
  are modelled as opaque parameters or by their documented contracts; each
  such modelling is flagged in its doc comment.
- Side effects that the claims talk about (which external operation ran,
  when a network connection is opened, how many stream elements were read)
  are made explicit as trace lists / counters.
-/

namespace Zen3geo

/-- A coordinate reference system tag, e.g. "EPSG:4326"; kept opaque. -/
abbrev CRS := String

/-- Shapely geometry base types as seen on a geopandas layer (the values of
vector.geom_type in datashader.py line 221). -/
inductive ShapelyType
  | point
  | multiPoint
  | lineString
  | multiLineString
  | polygon
  | multiPolygon
  | linearRing
  | geometryCollection
deriving DecidableEq, Repr

/-- The spatialpandas geometry dtypes. The first six are the dtypes named
by the if/elif dispatch in datashader.py lines 228-239; ring
(spatialpandas.geometry.RingDtype, produced for LinearRing geometries) is
a subclass of LineDtype, so the isinstance check of the line branch also
matches it. -/
inductive GeometryDtype
  | point
  | multipoint
  | line
  | multiline
  | polygon
  | multipolygon
  | ring
deriving DecidableEq, Repr

/-- Raster element data types relevant to the normalization step
(datashader.py lines 241-243). -/
inductive DType
  | bool
  | uint8
  | uint32
  | float64
deriving DecidableEq, Repr

/-- datashader.Canvas as used by DatashaderRasterizerIterDataPipe: plot
size, x/y ranges, and the (optional) crs attribute patched onto it.
Coordinates are modelled as integers; none of the verified claims depends
on fractional coordinates. -/
structure Canvas where
  plot_width : Nat
  plot_height : Nat
  x_range : Int × Int
  y_range : Int × Int
  crs : Option CRS
deriving DecidableEq, Repr

/-- A geopandas GeoSeries / GeoDataFrame: an optional CRS, the list of
geometry base types of its rows, and its bounds (used only in error
messages). -/
structure VectorLayer where
  crs : Option CRS
  geoms : List ShapelyType
  bounds : Int × Int × Int × Int
deriving DecidableEq, Repr

/-- An xarray.DataArray raster as produced by the burn + normalization
pipeline: element dtype, CRS, whether the grid follows the north-up
convention (one spatial axis increasing, the other decreasing), and an
opaque payload standing for the pixel data. -/
structure Raster where
  dtype : DType
  crs : Option CRS
  northUp : Bool
  payload : Nat
deriving DecidableEq, Repr

/-- Error raised by DatashaderRasterizerIterDataPipe.__init__ (the
ValueError of datashader.py lines 179-185), recording both lengths that the
message interpolates. -/
inductive RasterizeInitError
  | lengthMismatch (len_vector len_canvas : Nat)
deriving DecidableEq, Repr

/-- Errors raised during DatashaderRasterizerIterDataPipe.__iter__:
missingCRSCanvas is the AttributeError of lines 196-200 (message names the
x_range of the canvas and y_range); missingCRSVector is the AttributeError of
lines 208-212 (message names the bounds of the vector); unsupportedGeometry is
the NotImplementedError of lines 220-223; nameError is the unbound-local
NameError that line 242 would raise if no dispatch branch assigned raster
(unreachable for the dtypes the conversion produces, since the isinstance
checks also match subclasses);
typeConfusion stands for the failure of using the vector fill value as a
canvas when zip_longest pads the canvas side; indexError is the IndexError
of list(vectors).pop() on an empty vector datapipe. -/
inductive RasterizeError
  | missingCRSCanvas (x_range y_range : Int × Int)
  | missingCRSVector (bounds : Int × Int × Int × Int)
  | unsupportedGeometry
  | nameError
  | typeConfusion
  | indexError
deriving DecidableEq, Repr

/-- Externally visible operations performed while processing one
canvas/vector pair; used to state which stages ran before a failure. -/
inductive Op
  | reprojectVector
  | convertToSpatialpandas
  | burnGeometry
  | regrid
deriving DecidableEq, Repr

/-- The spatialpandas dtype a single shapely geometry maps to; a
GeometryCollection has no spatialpandas dtype. -/
def baseDtype : ShapelyType → Option GeometryDtype
  | .point => some .point
  | .multiPoint => some .multipoint
  | .lineString => some .line
  | .multiLineString => some .multiline
  | .polygon => some .polygon
  | .multiPolygon => some .multipolygon
  | .linearRing => some .ring
  | .geometryCollection => none

/-- Modelled from the contract of the external spatialpandas.GeoDataFrame
conversion (datashader.py lines 216-223): a homogeneous layer converts to
the corresponding geometry dtype; an empty, mixed-type or
geometry-collection layer raises ValueError (modelled as none). -/
def toSpatialpandas (v : VectorLayer) : Option GeometryDtype :=
  match v.geoms with
  | [] => none
  | g :: gs =>
    match baseDtype g with
    | none => none
    | some d => if gs.all (fun g2 => baseDtype g2 == some d) then some d else none

/-- The datashader aggregation method each branch of the if/elif chain in
datashader.py lines 228-239 selects: points for Point/MultiPoint dtypes,
line for Line/MultiLine, polygons for Polygon/MultiPolygon. -/
inductive BurnOp
  | points
  | line
  | polygons
deriving DecidableEq, Repr

/-- The isinstance dispatch of datashader.py lines 228-239. isinstance
matches subclasses, and spatialpandas RingDtype is declared as a subclass
of LineDtype (spatialpandas/geometry/ring.py), so a ring-dtype layer takes
the line branch at line 232. none would mean the chain fell through with
the local variable raster unassigned; no dtype the conversion produces
maps to none. -/
def dispatch : GeometryDtype → Option BurnOp
  | .point => some .points
  | .multipoint => some .points
  | .line => some .line
  | .multiline => some .line
  | .polygon => some .polygons
  | .multipolygon => some .polygons
  | .ring => some .line

/-- The external rasterization engine (canvas.points / canvas.line /
canvas.polygons together with the chosen aggregation): kept opaque, any
function producing a raw raster. -/
abbrev BurnEngine := BurnOp → Canvas → VectorLayer → Raster

/-- Modelled from the contract of the external geopandas to_crs call: the
returned layer carries the target CRS and the same geometries (reprojected
in place coordinates, which this embedding does not track). -/
def toCrsModel (v : VectorLayer) (c : CRS) : VectorLayer :=
  { v with crs := some c }

/-- Modelled from the contract of rioxarray set_crs (datashader.py line
246): tags the raster with the given CRS. -/
def rioSetCrs (r : Raster) (c : CRS) : Raster :=
  { r with crs := some c }

/-- Modelled from the contract of the external rioxarray reproject call
(datashader.py lines 248-250): the output raster is expressed on a
north-up grid in the destination CRS; dtype and data are carried over. -/
def rioReproject (r : Raster) (dst : CRS) : Raster :=
  { r with crs := some dst, northUp := true }

/-- The output normalization of datashader.py lines 241-250: boolean
rasters are cast to uint8, the CRS is set to the canvas CRS, and the raster
is re-gridded (reprojected onto itself) to the north-up convention. -/
def normalizeRaster (raw : Raster) (ccrs : CRS) : Raster :=
  let r1 := if raw.dtype = DType.bool then { raw with dtype := DType.uint8 } else raw
  rioReproject (rioSetCrs r1 ccrs) ccrs

/-- The vector reprojection step of datashader.py lines 202-212: if the
vector CRS differs from the canvas CRS, reproject (to_crs raises when the
vector has no CRS, re-raised as the AttributeError naming the bounds);
when the CRS already matches, the vector is passed through unchanged and no
reprojection runs. The returned trace records whether a reprojection
happened. -/
def reprojectToCanvas (v : VectorLayer) (ccrs : CRS) :
    Except RasterizeError (VectorLayer × List Op) :=
  if v.crs ≠ some ccrs then
    match v.crs with
    | none => .error (.missingCRSVector v.bounds)
    | some _ => .ok (toCrsModel v ccrs, [Op.reprojectVector])
  else .ok (v, [])

/-- The second half of the loop body (datashader.py lines 214-253), after
the CRS checks, acting on the (possibly reprojected) vector v2: convert to
spatialpandas (NotImplementedError on failure), select the burn method by
geometry dtype (the if/elif chain has no else branch: were no branch to
match, the local variable raster would stay unassigned and the later
raster.dtype access would raise NameError, a case that is unreachable for
the dtypes the conversion produces), burn, and normalize the output. -/
def convertStage (eng : BurnEngine) (canvas : Canvas) (ccrs : CRS)
    (v2 : VectorLayer) (t : List Op) :
    Except RasterizeError Raster × List Op :=
  match toSpatialpandas v2 with
  | none => (.error .unsupportedGeometry, t ++ [Op.convertToSpatialpandas])
  | some d =>
    match dispatch d with
    | none => (.error .nameError, t ++ [Op.convertToSpatialpandas])
    | some op =>
      (.ok (normalizeRaster (eng op canvas v2) ccrs),
       t ++ [Op.convertToSpatialpandas, Op.burnGeometry, Op.regrid])

/-- The body of the for loop of DatashaderRasterizerIterDataPipe.__iter__
(datashader.py lines 193-253) for one canvas/vector pair: canvas CRS check,
vector reprojection, then conversion, geometry-type dispatch, burn and
output normalization. Returns the result together with the trace of
external operations that ran. -/
def processPair (eng : BurnEngine) (canvas : Canvas) (vector : VectorLayer) :
    Except RasterizeError Raster × List Op :=
  match canvas.crs with
  | none => (.error (.missingCRSCanvas canvas.x_range canvas.y_range), [])
  | some ccrs =>
    match reprojectToCanvas vector ccrs with
    | .error e => (.error e, [])
    | .ok (v2, t) => convertStage eng canvas ccrs v2 t

/-- The torchdata zip_longest over the canvas and vector datapipes
(datashader.py lines 189-191): pairs are yielded until both sides are
exhausted, the exhausted side being padded with the fill value. The fill
value is a vector layer, so a padded canvas slot is represented as none
(using it as a canvas fails; see runPairs). -/
def zipLongest : List Canvas → List VectorLayer → VectorLayer →
    List (Option Canvas × VectorLayer)
  | [], [], _ => []
  | c :: cs, [], fill => (some c, fill) :: zipLongest cs [] fill
  | [], v :: vs, fill => (none, v) :: zipLongest [] vs fill
  | c :: cs, v :: vs, fill => (some c, v) :: zipLongest cs vs fill

/-- Running the loop body over the formed pairs in order: each successful
pair yields its raster; the first failing pair aborts iteration with its
error (a raised exception stops the generator). A padded canvas slot
(vector fill value standing in for a canvas) fails as well. -/
def runPairs (eng : BurnEngine) :
    List (Option Canvas × VectorLayer) → List Raster × Option RasterizeError
  | [] => ([], none)
  | (none, _) :: _ => ([], some .typeConfusion)
  | (some c, v) :: rest =>
    match (processPair eng c v).1 with
    | .error e => ([], some e)
    | .ok r =>
      let out := runPairs eng rest
      (r :: out.1, out.2)

/-- DatashaderRasterizerIterDataPipe.__iter__ over re-iterable datapipes
(datashader.py lines 187-253): the fill value list(vectors).pop() is the
last vector layer, computed once up front (IndexError on an empty list);
then zip_longest pairs canvases with vectors and the loop body runs on each
pair. Returns the yielded rasters and the error that aborted iteration, if
any. -/
def rasterizerIter (eng : BurnEngine) (cs : List Canvas) (vs : List VectorLayer) :
    List Raster × Option RasterizeError :=
  match vs.getLast? with
  | none => ([], some .indexError)
  | some fill => runPairs eng (zipLongest cs vs fill)

/-- DatashaderRasterizerIterDataPipe.__len__ (datashader.py lines 255-256):
the length of the canvas datapipe. -/
def rasterizerLen (cs : List Canvas) (_vs : List VectorLayer) : Nat :=
  cs.length

/-- The constructed DatashaderRasterizerIterDataPipe: its two upstream
datapipes. -/
structure DatashaderRasterizer where
  source_datapipe : List Canvas
  vector_datapipe : List VectorLayer
deriving DecidableEq, Repr

/-- DatashaderRasterizerIterDataPipe.__init__ validation, verbatim from
datashader.py lines 176-185: raise ValueError when
len_vector != 1 or len_vector != len_canvas. -/
def rasterizerInit (cs : List Canvas) (vs : List VectorLayer) :
    Except RasterizeInitError DatashaderRasterizer :=
  if vs.length ≠ 1 ∨ vs.length ≠ cs.length then
    .error (.lengthMismatch vs.length cs.length)
  else
    .ok { source_datapipe := cs, vector_datapipe := vs }

/-- The acceptance condition the spec states for construction:
N == 1 (broadcast) or N == M (pairwise zip). -/
def specAcceptsLengths (len_canvas len_vector : Nat) : Prop :=
  len_vector = 1 ∨ len_vector = len_canvas

/-- A canvas/vector pair on which the loop body succeeds: the canvas
carries a CRS, the vector carries a CRS, and the vector converts to a
spatialpandas dtype that some dispatch branch handles. -/
def validPair (c : Canvas) (v : VectorLayer) : Bool :=
  c.crs.isSome && v.crs.isSome &&
    (match toSpatialpandas v with
     | some d => (dispatch d).isSome
     | none => false)

/-- Placeholder raster (never produced by a successful run; used only to
make rasterOf total). -/
def dummyRaster : Raster :=
  { dtype := DType.uint8, crs := none, northUp := true, payload := 0 }

/-- The raster the loop body yields for one pair (total version of the
success projection of processPair). -/
def rasterOf (eng : BurnEngine) (c : Canvas) (v : VectorLayer) : Raster :=
  match (processPair eng c v).1 with
  | .ok r => r
  | .error _ => dummyRaster

/-- The pairs the broadcast/zip forms, as the spec describes them: with a
single vector layer it is repeated for every canvas, otherwise canvases and
vectors are zipped pairwise. -/
def formedPairs (cs : List Canvas) (vs : List VectorLayer) :
    List (Canvas × VectorLayer) :=
  match vs with
  | [v] => cs.map (fun c => (c, v))
  | _ => cs.zip vs

/-- A single-pass view of the vector datapipe: the underlying items plus a
cursor; items before the cursor have already been consumed and cannot be
obtained again. -/
structure VectorStream where
  items : List VectorLayer
  cursor : Nat
deriving DecidableEq, Repr

/-- Draining a single-pass stream (what list(self.vector_datapipe) does):
returns every not-yet-consumed item and the exhausted stream. -/
def readAll (s : VectorStream) : List VectorLayer × VectorStream :=
  (s.items.drop s.cursor, { s with cursor := s.items.length })

/-- The observable record of one call of
DatashaderRasterizerIterDataPipe.__iter__ over a single-pass vector
source: the run outcome, the final stream state, how many vector elements
the zip stage obtained from the stream, how many the eager fill-value
computation obtained, and the fill value itself. -/
structure SinglePassTrace where
  run : List Raster × Option RasterizeError
  finalStream : VectorStream
  zipReads : Nat
  eagerReads : Nat
  fillValue : Option VectorLayer
deriving Repr

/-- DatashaderRasterizerIterDataPipe.__iter__ (datashader.py lines
187-253) against a single-pass vector source: the fill value
list(vectors).pop() drains the stream once, eagerly, before any pair is
formed; zip_longest then iterates the (now exhausted) stream again,
obtaining whatever items remain, and pads every missing vector slot with
the already-computed fill value. -/
def rasterizerIterSinglePass (eng : BurnEngine) (cs : List Canvas)
    (s0 : VectorStream) : SinglePassTrace :=
  let got1 := (readAll s0).1
  let s1 := (readAll s0).2
  match got1.getLast? with
  | none =>
    { run := ([], some .indexError), finalStream := s1, zipReads := 0,
      eagerReads := got1.length, fillValue := none }
  | some fill =>
    let got2 := (readAll s1).1
    let s2 := (readAll s1).2
    { run := runPairs eng (zipLongest cs got2 fill), finalStream := s2,
      zipReads := got2.length, eagerReads := got1.length,
      fillValue := some fill }

/-- A STAC API query mapping, kept opaque. -/
abbrev Query := Nat

/-- pystac_client.ItemSearch: a deferred query object remembering which
catalog it was issued against and with which parameters; creating one
fetches no result items. -/
structure SearchHandle where
  catalog_url : String
  query : Query
deriving DecidableEq, Repr

/-- Externally visible effects of the PySTACAPISearcher adapter:
openConnection is pystac_client.Client.open, issueSearch is
catalog.search (deferred, no network fetch of items), fetchItems stands
for actually enumerating result items (never performed by this adapter). -/
inductive StacOp
  | openConnection (url : String)
  | issueSearch (q : Query)
  | fetchItems
deriving DecidableEq, Repr

/-- The constructed PySTACAPISearcherIterDataPipe: its upstream query
datapipe and the catalog URL. -/
structure PySTACAPISearcher where
  source_datapipe : List Query
  catalog_url : String
deriving DecidableEq, Repr

/-- PySTACAPISearcherIterDataPipe.__init__ (pystac_client.py lines
110-125): stores the datapipe, URL and options. Returns the adapter and
the list of catalog effects performed during construction (none: the
constructor only checks the dependency and assigns attributes). -/
def pystacSearcherInit (qs : List Query) (url : String) :
    PySTACAPISearcher × List StacOp :=
  ({ source_datapipe := qs, catalog_url := url }, [])

/-- PySTACAPISearcherIterDataPipe.__iter__ (pystac_client.py lines
127-132): opens the catalog connection (Client.open) at the start of the
iteration pass, then for each query yields the deferred search handle
catalog.search returns. Returns the yielded handles and the effect trace
of the pass. -/
def pystacSearcherIter (s : PySTACAPISearcher) :
    List SearchHandle × List StacOp :=
  (s.source_datapipe.map (fun q => { catalog_url := s.catalog_url, query := q }),
   StacOp.openConnection s.catalog_url :: s.source_datapipe.map StacOp.issueSearch)

/-- PySTACAPISearcherIterDataPipe.__len__ (pystac_client.py lines
134-135). -/
def pystacSearcherLen (s : PySTACAPISearcher) : Nat :=
  s.source_datapipe.length

/-- A window (chip) produced by the external xbatcher generator, kept
opaque. -/
abbrev Chip := Nat

/-- One input to the XbatcherSlicer together with the windows the external
xbatcher BatchGenerator yields for it under the fixed
input_dims. -/
structure SliceableArray where
  windows : List Chip
deriving DecidableEq, Repr

/-- The constructed XbatcherSlicerIterDataPipe: its upstream datapipe. -/
structure XbatcherSlicer where
  source_datapipe : List SliceableArray
deriving DecidableEq, Repr

/-- XbatcherSlicerIterDataPipe.__iter__ (xbatcher.py lines 100-112): for
each input, yield every window its generator produces, in order. -/
def xbatcherSlicerIter (s : XbatcherSlicer) : List Chip :=
  s.source_datapipe.flatMap (fun a => a.windows)

/-- XbatcherSlicerIterDataPipe exposes no __len__: the definition at
xbatcher.py lines 114-115 is commented out, so calling len() on the
adapter raises TypeError. Modelled as the absence of a reported length. -/
def xbatcherSlicerLen (_s : XbatcherSlicer) : Option Nat :=
  none

/-- The length the spec claims the tiling adapter reports: the sum over
all inputs of the number of windows each yields. -/
def xbatcherSpecLen (s : XbatcherSlicer) : Nat :=
  (s.source_datapipe.map (fun a => a.windows.length)).sum

/-- An xarray raster mask consumed by the rectangle clipper: its CRS
(rio.crs) and rectangular bounds (rio.bounds()). -/
structure RasterMask where
  crs : Option CRS
  bounds : Int × Int × Int × Int
deriving DecidableEq, Repr

/-- Error raised by GeoPandasRectangleClipperIterDataPipe.__init__ (the
NotImplementedError of geopandas.py lines 153-158), recording the vector
datapipe length the message interpolates. -/
inductive ClipInitError
  | notSupported (len_vector : Nat)
deriving DecidableEq, Repr

/-- The constructed GeoPandasRectangleClipperIterDataPipe: its two
upstream datapipes. -/
structure GeoPandasRectangleClipper where
  source_datapipe : List VectorLayer
  mask_datapipe : List RasterMask
deriving DecidableEq, Repr

/-- GeoPandasRectangleClipperIterDataPipe.__init__ validation, verbatim
from geopandas.py lines 151-158: raise NotImplementedError when the vector
datapipe has length other than 1. -/
def clipperInit (vs : List VectorLayer) (ms : List RasterMask) :
    Except ClipInitError GeoPandasRectangleClipper :=
  if vs.length ≠ 1 then
    .error (.notSupported vs.length)
  else
    .ok { source_datapipe := vs, mask_datapipe := ms }

/-- The CRS reconciliation step of
GeoPandasRectangleClipperIterDataPipe.__iter__ (geopandas.py lines
166-170): assert that the vector CRS equals the mask CRS and keep the
vector unchanged; on assertion failure reproject via the external to_crs
(passed in as a parameter). -/
def clipperReprojectStep (toCrsExt : VectorLayer → Option CRS → VectorLayer)
    (g : VectorLayer) (maskCrs : Option CRS) : VectorLayer :=
  if g.crs = maskCrs then g else toCrsExt g maskCrs

/-- GeoPandasRectangleClipperIterDataPipe.__iter__ (geopandas.py lines
160-174): materialize the sole vector layer once (list(...).pop()), then
for each mask reproject it if needed, clip it to the mask bounds via the
external clip (passed in as a parameter), and yield the (clipped, mask)
pair. -/
def clipperIter (toCrsExt : VectorLayer → Option CRS → VectorLayer)
    (clipExt : VectorLayer → Int × Int × Int × Int → VectorLayer)
    (clipper : GeoPandasRectangleClipper) :
    Option (List (VectorLayer × RasterMask)) :=
  match clipper.source_datapipe.getLast? with
  | none => none
  | some g =>
    some (clipper.mask_datapipe.map (fun m =>
      (clipExt (clipperReprojectStep toCrsExt g m.crs) m.bounds, m)))

/-- GeoPandasRectangleClipperIterDataPipe.__len__ (geopandas.py lines
176-177). -/
def clipperLen (clipper : GeoPandasRectangleClipper) : Nat :=
  clipper.mask_datapipe.length

/-
Concrete instances used by the witnesses.
-/

def exCrs : CRS := "EPSG:4326"

def exCrs2 : CRS := "EPSG:32631"

def exCanvas : Canvas :=
  { plot_width := 14, plot_height := 10, x_range := (1, 8), y_range := (0, 5),
    crs := some exCrs }

def exCanvasNoCrs : Canvas :=
  { plot_width := 14, plot_height := 10, x_range := (1, 8), y_range := (0, 5),
    crs := none }

def exPointLayer : VectorLayer :=
  { crs := some exCrs, geoms := [ShapelyType.point], bounds := (0, 0, 1, 1) }

def exRingLayer : VectorLayer :=
  { crs := some exCrs, geoms := [ShapelyType.linearRing], bounds := (0, 0, 1, 1) }

def exEngine : BurnEngine := fun _ _ _ =>
  { dtype := DType.bool, crs := none, northUp := false, payload := 7 }

/-- A nontrivial external to_crs stand-in for the clipper witnesses. -/
def exToCrs : VectorLayer → Option CRS → VectorLayer := fun g c =>
  match c with
  | some cc => toCrsModel g cc
  | none => g

def exUrl : String := "https://example.com/stac"

/-- A concrete tiling adapter over two inputs with 2 and 1 windows. -/
def c7Slicer : XbatcherSlicer :=
  { source_datapipe := [{ windows := [10, 11] }, { windows := [12] }] }

/-
Helper lemmas.
-/

lemma toSpatialpandas_toCrsModel (v : VectorLayer) (c : CRS) :
    toSpatialpandas (toCrsModel v c) = toSpatialpandas v := rfl

lemma processPair_none_crs (eng : BurnEngine) (c : Canvas) (v : VectorLayer)
    (hc : c.crs = none) :
    processPair eng c v =
      (.error (.missingCRSCanvas c.x_range c.y_range), []) := by
  unfold processPair
  rw [hc]

lemma processPair_some_crs (eng : BurnEngine) (c : Canvas) (v : VectorLayer)
    (ccrs : CRS) (hc : c.crs = some ccrs) :
    processPair eng c v =
      match reprojectToCanvas v ccrs with
      | .error e => (.error e, [])
      | .ok (v2, t) => convertStage eng c ccrs v2 t := by
  unfold processPair
  rw [hc]

lemma reprojectToCanvas_eq_crs (v : VectorLayer) (ccrs : CRS)
    (h : v.crs = some ccrs) : reprojectToCanvas v ccrs = .ok (v, []) := by
  simp [reprojectToCanvas, h]

lemma reprojectToCanvas_ne_crs (v : VectorLayer) (vcrs ccrs : CRS)
    (h : v.crs = some vcrs) (hne : vcrs ≠ ccrs) :
    reprojectToCanvas v ccrs = .ok (toCrsModel v ccrs, [Op.reprojectVector]) := by
  simp [reprojectToCanvas, h, hne]

lemma convertStage_ok (eng : BurnEngine) (c : Canvas) (ccrs : CRS)
    (v2 : VectorLayer) (t : List Op) (d : GeometryDtype) (op : BurnOp)
    (hd : toSpatialpandas v2 = some d) (hop : dispatch d = some op) :
    convertStage eng c ccrs v2 t =
      (.ok (normalizeRaster (eng op c v2) ccrs),
       t ++ [Op.convertToSpatialpandas, Op.burnGeometry, Op.regrid]) := by
  simp only [convertStage, hd, hop]

lemma processPair_fst_ok_of_valid (eng : BurnEngine) (c : Canvas) (v : VectorLayer)
    (h : validPair c v = true) :
    ∃ r, (processPair eng c v).1 = .ok r := by
  simp only [validPair, Bool.and_eq_true, Option.isSome_iff_exists] at h
  obtain ⟨⟨⟨ccrs, hc⟩, ⟨vcrs, hv⟩⟩, hd⟩ := h
  obtain ⟨d, hds⟩ : ∃ d, toSpatialpandas v = some d := by
    cases hsp : toSpatialpandas v with
    | none => rw [hsp] at hd; simp at hd
    | some d => exact ⟨d, rfl⟩
  rw [hds] at hd
  simp only at hd
  obtain ⟨op, hop⟩ := Option.isSome_iff_exists.mp hd
  rw [processPair_some_crs eng c v ccrs hc]
  by_cases hcc : vcrs = ccrs
  · subst hcc
    rw [reprojectToCanvas_eq_crs v vcrs hv]
    show ∃ r, (convertStage eng c vcrs v []).1 = .ok r
    rw [convertStage_ok eng c vcrs v [] d op hds hop]
    exact ⟨_, rfl⟩
  · rw [reprojectToCanvas_ne_crs v vcrs ccrs hv hcc]
    show ∃ r, (convertStage eng c ccrs (toCrsModel v ccrs) [Op.reprojectVector]).1 = .ok r
    rw [convertStage_ok eng c ccrs (toCrsModel v ccrs) [Op.reprojectVector] d op
      (by rw [toSpatialpandas_toCrsModel, hds]) hop]
    exact ⟨_, rfl⟩

lemma rasterOf_eq_of_fst_ok (eng : BurnEngine) (c : Canvas) (v : VectorLayer)
    (r : Raster) (h : (processPair eng c v).1 = .ok r) :
    rasterOf eng c v = r := by
  simp [rasterOf, h]

lemma runPairs_map_valid (eng : BurnEngine) (ps : List (Canvas × VectorLayer))
    (h : ∀ p ∈ ps, validPair p.1 p.2 = true) :
    runPairs eng (ps.map (fun p => (some p.1, p.2))) =
      (ps.map (fun p => rasterOf eng p.1 p.2), none) := by
  induction ps with
  | nil => simp [runPairs]
  | cons p ps ih =>
    obtain ⟨r, hr⟩ :=
      processPair_fst_ok_of_valid eng p.1 p.2 (h p (List.mem_cons_self p ps))
    have hro := rasterOf_eq_of_fst_ok eng p.1 p.2 r hr
    simp only [List.map_cons, runPairs, hr]
    rw [ih (fun q hq => h q (List.mem_cons_of_mem p hq)), hro]

lemma zipLongest_nil_right (cs : List Canvas) (fill : VectorLayer) :
    zipLongest cs [] fill = cs.map (fun c => (some c, fill)) := by
  induction cs with
  | nil => simp [zipLongest]
  | cons c cs ih => simp [zipLongest, ih]

lemma zipLongest_single (c : Canvas) (cs : List Canvas) (v : VectorLayer) :
    zipLongest (c :: cs) [v] v = (c :: cs).map (fun c2 => (some c2, v)) := by
  simp [zipLongest, zipLongest_nil_right]

lemma zipLongest_same_length (cs : List Canvas) (vs : List VectorLayer)
    (fill : VectorLayer) (h : cs.length = vs.length) :
    zipLongest cs vs fill = (cs.zip vs).map (fun p => (some p.1, p.2)) := by
  induction cs generalizing vs with
  | nil =>
    cases vs with
    | nil => simp [zipLongest]
    | cons v vs => simp at h
  | cons c cs ih =>
    cases vs with
    | nil => simp at h
    | cons v vs =>
      simp only [List.length_cons, Nat.add_right_cancel_iff] at h
      simp [zipLongest, List.zip_cons_cons, ih vs h]

lemma rasterizerInit_ok_lengths (cs : List Canvas) (vs : List VectorLayer)
    (rz : DatashaderRasterizer) (h : rasterizerInit cs vs = .ok rz) :
    vs.length = 1 ∧ vs.length = cs.length := by
  unfold rasterizerInit at h
  split at h
  · exact absurd h (by simp)
  · next hcond =>
    push_neg at hcond
    exact hcond

lemma runPairs_append_of_ok (eng : BurnEngine)
    (xs ys : List (Option Canvas × VectorLayer))
    (h : (runPairs eng xs).2 = none) :
    runPairs eng (xs ++ ys) =
      ((runPairs eng xs).1 ++ (runPairs eng ys).1, (runPairs eng ys).2) := by
  induction xs with
  | nil => simp [runPairs]
  | cons x xs ih =>
    match x with
    | (none, v) => simp [runPairs] at h
    | (some c, v) =>
      cases hpc : (processPair eng c v).1 with
      | error e =>
        simp only [runPairs, hpc] at h
        exact absurd h (by simp)
      | ok r =>
        simp only [List.cons_append, runPairs, hpc] at h ⊢
        simp only [List.append_eq]
        rw [ih h]

lemma normalizeRaster_spec (raw : Raster) (ccrs : CRS) :
    (normalizeRaster raw ccrs).dtype =
      (if raw.dtype = DType.bool then DType.uint8 else raw.dtype) ∧
    (normalizeRaster raw ccrs).crs = some ccrs ∧
    (normalizeRaster raw ccrs).northUp = true := by
  by_cases hb : raw.dtype = DType.bool <;>
    simp [normalizeRaster, rioSetCrs, rioReproject, hb]

/-
Claim theorems.
-/

/-- Claim C1 (code bug evaluated at the failing input): the spec accepts an
(M = 2 canvases, N = 1 vector) pairing, but the construction check of
datashader.py line 178 (len_vector != 1 or len_vector != len_canvas, with
or where the documented 1:N-or-N:N contract requires and) raises the
LengthMismatch ValueError on it, naming both lengths. -/
theorem c1_lengthCheck_rejects_broadcast :
    specAcceptsLengths 2 1 ∧
    rasterizerInit [exCanvas, exCanvas] [exPointLayer] =
      .error (.lengthMismatch 1 2) :=
  ⟨Or.inl rfl, by rfl⟩

/-- Claim C2: for every successfully constructed rasterization adapter over
M canvases and either 1 or M vector layers whose pairs are all valid (CRS
present, supported geometry type), iteration completes without error,
yields exactly M rasters, one per formed canvas/vector pair in order, and
the reported length equals M. -/
theorem c2_yields_one_raster_per_canvas (eng : BurnEngine) (cs : List Canvas)
    (vs : List VectorLayer) (rz : DatashaderRasterizer)
    (hinit : rasterizerInit cs vs = .ok rz)
    (hlens : vs.length = 1 ∨ vs.length = cs.length)
    (hvalid : ∀ c ∈ cs, ∀ v ∈ vs, validPair c v = true) :
    (rasterizerIter eng cs vs).2 = none ∧
    (rasterizerIter eng cs vs).1.length = cs.length ∧
    rasterizerLen cs vs = cs.length ∧
    (rasterizerIter eng cs vs).1 =
      (formedPairs cs vs).map (fun p => rasterOf eng p.1 p.2) := by
  obtain ⟨hv1, hvc⟩ := rasterizerInit_ok_lengths cs vs rz hinit
  obtain ⟨v, rfl⟩ := List.length_eq_one.mp hv1
  have hc1 : cs.length = 1 := by omega
  obtain ⟨c, rfl⟩ := List.length_eq_one.mp hc1
  have hval : validPair c v = true := hvalid c (by simp) v (by simp)
  have hrun := runPairs_map_valid eng [(c, v)] (by simpa using hval)
  simp only [List.map_cons, List.map_nil] at hrun
  have hiter : rasterizerIter eng [c] [v] = ([rasterOf eng c v], none) := by
    unfold rasterizerIter
    simp [zipLongest, hrun]
  refine ⟨?_, ?_, rfl, ?_⟩
  · rw [hiter]
  · rw [hiter]; rfl
  · rw [hiter]; simp [formedPairs]

theorem c2_witness :
    (rasterizerIter exEngine [exCanvas] [exPointLayer]).2 = none ∧
    (rasterizerIter exEngine [exCanvas] [exPointLayer]).1.length =
      [exCanvas].length ∧
    rasterizerLen [exCanvas] [exPointLayer] = [exCanvas].length ∧
    (rasterizerIter exEngine [exCanvas] [exPointLayer]).1 =
      (formedPairs [exCanvas] [exPointLayer]).map
        (fun p => rasterOf exEngine p.1 p.2) :=
  c2_yields_one_raster_per_canvas exEngine [exCanvas] [exPointLayer]
    { source_datapipe := [exCanvas], vector_datapipe := [exPointLayer] }
    (by rfl) (Or.inl rfl) (by decide)

/-- Claim C3: with a single vector layer, the broadcast fill value is that
layer, computed once, eagerly (one element read), before any pair is
formed; against a single-pass vector source the zipping stage obtains zero
further elements and the run still processes every canvas against that
same layer; against a re-iterable source every canvas is likewise paired
with that same layer. -/
theorem c3_broadcast_fill_once (eng : BurnEngine) (cs : List Canvas)
    (c0 : Canvas) (cs0 : List Canvas) (v : VectorLayer) :
    ((rasterizerIterSinglePass eng cs { items := [v], cursor := 0 }).fillValue =
      some v ∧
     (rasterizerIterSinglePass eng cs { items := [v], cursor := 0 }).eagerReads = 1 ∧
     (rasterizerIterSinglePass eng cs { items := [v], cursor := 0 }).zipReads = 0 ∧
     (rasterizerIterSinglePass eng cs { items := [v], cursor := 0 }).run =
       runPairs eng (cs.map (fun c => (some c, v)))) ∧
    rasterizerIter eng (c0 :: cs0) [v] =
      runPairs eng ((c0 :: cs0).map (fun c => (some c, v))) := by
  constructor
  · unfold rasterizerIterSinglePass readAll
    simp [zipLongest_nil_right]
  · unfold rasterizerIter
    simp [zipLongest_single]

/-- Claim C4: a canvas whose crs attribute is absent or None makes the loop
body fail with the MissingCRS AttributeError naming the x_range and
y_range of that canvas, with an empty operation trace (no reprojection,
conversion or burn is attempted for that pair); at run level, iteration
yields the rasters of the pairs before that canvas and halts there with
that error. -/
theorem c4_missing_canvas_crs_halts (eng : BurnEngine)
    (front : List (Option Canvas × VectorLayer)) (c : Canvas) (v : VectorLayer)
    (rest : List (Option Canvas × VectorLayer))
    (hfront : (runPairs eng front).2 = none)
    (hc : c.crs = none) :
    processPair eng c v = (.error (.missingCRSCanvas c.x_range c.y_range), []) ∧
    runPairs eng (front ++ (some c, v) :: rest) =
      ((runPairs eng front).1, some (.missingCRSCanvas c.x_range c.y_range)) := by
  have hp := processPair_none_crs eng c v hc
  refine ⟨hp, ?_⟩
  have hhead : runPairs eng ((some c, v) :: rest) =
      ([], some (.missingCRSCanvas c.x_range c.y_range)) := by
    simp only [runPairs, hp]
  rw [runPairs_append_of_ok eng front ((some c, v) :: rest) hfront, hhead]
  simp

theorem c4_witness :
    processPair exEngine exCanvasNoCrs exPointLayer =
      (.error (.missingCRSCanvas (1, 8) (0, 5)), []) ∧
    runPairs exEngine ([] ++ (some exCanvasNoCrs, exPointLayer) :: []) =
      ((runPairs exEngine []).1, some (.missingCRSCanvas (1, 8) (0, 5))) :=
  c4_missing_canvas_crs_halts exEngine [] exCanvasNoCrs exPointLayer [] rfl rfl

/-- Claim C5: the output normalization turns a boolean burn result into
uint8 (leaving other dtypes unchanged), sets the CRS to the canvas CRS and
re-expresses the raster north-up; and every raster the loop body yields is
such a normalized raster, produced through the explicit re-gridding step
(regrid appears in the trace), with the canvas CRS, north-up orientation
and a non-boolean dtype. -/
theorem c5_output_normalization :
    (∀ (raw : Raster) (ccrs : CRS),
      (normalizeRaster raw ccrs).dtype =
        (if raw.dtype = DType.bool then DType.uint8 else raw.dtype) ∧
      (normalizeRaster raw ccrs).crs = some ccrs ∧
      (normalizeRaster raw ccrs).northUp = true) ∧
    (∀ (eng : BurnEngine) (c : Canvas) (v : VectorLayer) (ccrs : CRS)
      (r : Raster) (t : List Op),
      c.crs = some ccrs → processPair eng c v = (.ok r, t) →
      (∃ raw, r = normalizeRaster raw ccrs) ∧ Op.regrid ∈ t ∧
      r.crs = some ccrs ∧ r.northUp = true ∧ r.dtype ≠ DType.bool) := by
  refine ⟨normalizeRaster_spec, ?_⟩
  intro eng c v ccrs r t hc hp
  rw [processPair_some_crs eng c v ccrs hc] at hp
  cases hre : reprojectToCanvas v ccrs with
  | error e => rw [hre] at hp; simp at hp
  | ok p =>
    obtain ⟨v2, t0⟩ := p
    rw [hre] at hp
    simp only at hp
    cases hsp : toSpatialpandas v2 with
    | none =>
      simp only [convertStage, hsp] at hp
      simp at hp
    | some d =>
      cases hop : dispatch d with
      | none =>
        simp only [convertStage, hsp, hop] at hp
        simp at hp
      | some op =>
        rw [convertStage_ok eng c ccrs v2 t0 d op hsp hop] at hp
        have hr2 : r = normalizeRaster (eng op c v2) ccrs := by
          have h1 := congrArg Prod.fst hp
          simp only at h1
          exact (Except.ok.inj h1).symm
        have ht2 : t = t0 ++ [Op.convertToSpatialpandas, Op.burnGeometry, Op.regrid] := by
          have h2 := congrArg Prod.snd hp
          simp only at h2
          exact h2.symm
        obtain ⟨hd, hcr, hn⟩ := normalizeRaster_spec (eng op c v2) ccrs
        refine ⟨⟨eng op c v2, hr2⟩, by rw [ht2]; simp, ?_, ?_, ?_⟩
        · rw [hr2]; exact hcr
        · rw [hr2]; exact hn
        · rw [hr2, hd]
          by_cases hbb : (eng op c v2).dtype = DType.bool <;> simp [hbb]

theorem c5_witness :
    (∃ raw, rasterOf exEngine exCanvas exPointLayer = normalizeRaster raw exCrs) ∧
    Op.regrid ∈ (processPair exEngine exCanvas exPointLayer).2 ∧
    (rasterOf exEngine exCanvas exPointLayer).crs = some exCrs ∧
    (rasterOf exEngine exCanvas exPointLayer).northUp = true ∧
    (rasterOf exEngine exCanvas exPointLayer).dtype ≠ DType.bool :=
  c5_output_normalization.2 exEngine exCanvas exPointLayer exCrs
    (rasterOf exEngine exCanvas exPointLayer)
    ((processPair exEngine exCanvas exPointLayer).2)
    rfl (by rfl)

/-- Claim C6, counterexample: at a concrete one-query input, construction
of the catalog-search adapter does not open exactly one catalog connection
(it opens none; Client.open runs in the iteration method, not in the
constructor). -/
theorem c6_counterexample :
    ¬ ((pystacSearcherInit [0] exUrl).2.count (StacOp.openConnection exUrl) = 1) := by
  simp [pystacSearcherInit]

/-- Claim C6, amended: construction performs no catalog effect; each
iteration pass opens exactly one catalog connection, as its first effect,
then yields one deferred SearchHandle per query in order, fetching no
result items; the reported length is the number of queries. -/
theorem c6_amended_connection_on_iteration (qs : List Query) (url : String) :
    (pystacSearcherInit qs url).2 = [] ∧
    ((pystacSearcherIter (pystacSearcherInit qs url).1).2).count
      (StacOp.openConnection url) = 1 ∧
    ((pystacSearcherIter (pystacSearcherInit qs url).1).2).head? =
      some (StacOp.openConnection url) ∧
    (pystacSearcherIter (pystacSearcherInit qs url).1).1 =
      qs.map (fun q => { catalog_url := url, query := q }) ∧
    ((pystacSearcherIter (pystacSearcherInit qs url).1).2).count
      StacOp.fetchItems = 0 ∧
    pystacSearcherLen (pystacSearcherInit qs url).1 = qs.length := by
  refine ⟨rfl, ?_, rfl, rfl, ?_, rfl⟩
  · simp [pystacSearcherIter, pystacSearcherInit, List.count_cons, List.count_eq_zero]
  · simp [pystacSearcherIter, pystacSearcherInit, List.count_cons, List.count_eq_zero]

/-- Claim C7, counterexample: at a concrete two-input adapter, the
reported length is not the sum of the window counts, because the adapter
reports no length at all (its length method is commented out). -/
theorem c7_counterexample :
    ¬ (xbatcherSlicerLen c7Slicer = some (xbatcherSpecLen c7Slicer)) := by
  simp [xbatcherSlicerLen]

/-- Claim C7, amended: the tiling adapter reports no length; the number of
chips its iteration yields equals the sum, over all inputs, of the number
of windows each input yields. -/
theorem c7_amended_no_reported_length (s : XbatcherSlicer) :
    xbatcherSlicerLen s = none ∧
    (xbatcherSlicerIter s).length = xbatcherSpecLen s :=
  ⟨rfl, by simp [xbatcherSlicerIter, xbatcherSpecLen, Function.comp_def]⟩

/-- Claim C8: whenever the vector sequence given to the rectangle-clip
adapter is longer than one, construction fails with the NotSupported
NotImplementedError recording that length, and no adapter value exists to
iterate. -/
theorem c8_clipper_rejects_multiple_vectors (vs : List VectorLayer)
    (ms : List RasterMask) (h : 1 < vs.length) :
    clipperInit vs ms = .error (.notSupported vs.length) ∧
    ∀ clipper : GeoPandasRectangleClipper, clipperInit vs ms ≠ .ok clipper := by
  have hne : vs.length ≠ 1 := by omega
  refine ⟨by simp [clipperInit, hne], ?_⟩
  intro clipper hck
  simp [clipperInit, hne] at hck

theorem c8_witness :
    clipperInit [exPointLayer, exRingLayer] [] = .error (.notSupported 2) ∧
    ∀ clipper : GeoPandasRectangleClipper,
      clipperInit [exPointLayer, exRingLayer] [] ≠ .ok clipper :=
  c8_clipper_rejects_multiple_vectors [exPointLayer, exRingLayer] [] (by simp)

/-- Claim C9: when the vector CRS already equals the target CRS, the
reprojection step of the rectangle-clip adapter returns the unchanged
input layer (whatever the external to_crs would do), and the reprojection
step of the rasterization adapter passes the unchanged layer on with no
reprojection operation in the trace. -/
theorem c9_reproject_noop :
    (∀ (toCrsExt : VectorLayer → Option CRS → VectorLayer) (g : VectorLayer)
      (mcrs : Option CRS), g.crs = mcrs → clipperReprojectStep toCrsExt g mcrs = g) ∧
    (∀ (v : VectorLayer) (ccrs : CRS), v.crs = some ccrs →
      reprojectToCanvas v ccrs = .ok (v, [])) := by
  constructor
  · intro toCrsExt g mcrs h
    simp [clipperReprojectStep, h]
  · intro v ccrs h
    exact reprojectToCanvas_eq_crs v ccrs h

theorem c9_witness :
    clipperReprojectStep exToCrs exPointLayer (some exCrs) = exPointLayer ∧
    reprojectToCanvas exPointLayer exCrs = .ok (exPointLayer, []) :=
  ⟨c9_reproject_noop.1 exToCrs exPointLayer (some exCrs) rfl,
   c9_reproject_noop.2 exPointLayer exCrs rfl⟩

/-- Claim C10, counterexample: a LinearRing layer is accepted by the
spatialpandas conversion with the ring dtype, which is not one of the six
dtypes the claim lists, yet the loop body succeeds (RingDtype subclasses
LineDtype, so the isinstance line branch burns it via canvas.line) and no
NameError occurs. -/
theorem c10_counterexample :
    toSpatialpandas exRingLayer = some GeometryDtype.ring ∧
    processPair exEngine exCanvas exRingLayer =
      (.ok (normalizeRaster (exEngine BurnOp.line exCanvas exRingLayer) exCrs),
       [Op.convertToSpatialpandas, Op.burnGeometry, Op.regrid]) ∧
    (processPair exEngine exCanvas exRingLayer).1 ≠
      .error RasterizeError.nameError := by
  refine ⟨rfl, rfl, ?_⟩
  intro h
  rw [show (processPair exEngine exCanvas exRingLayer).1 =
    .ok (normalizeRaster (exEngine BurnOp.line exCanvas exRingLayer) exCrs)
    from rfl] at h
  exact absurd h (by simp)

/-- Claim C10, amended: the geometry-type dispatch is exhaustive over
every dtype the spatialpandas conversion produces: the isinstance checks
match subclasses, so the ring dtype is handled by the line branch (burned
via canvas.line), every dtype selects some burn method, and every
conversion-accepted layer whose CRS checks pass is processed to a raster
(the unbound-variable NameError path is unreachable). -/
theorem c10_amended_dispatch_exhaustive :
    (∀ d : GeometryDtype, (dispatch d).isSome = true) ∧
    dispatch GeometryDtype.ring = some BurnOp.line ∧
    (∀ (eng : BurnEngine) (c : Canvas) (v : VectorLayer) (ccrs : CRS)
      (d : GeometryDtype),
      c.crs = some ccrs → v.crs = some ccrs →
      toSpatialpandas v = some d →
      ∃ r t, processPair eng c v = (.ok r, t)) := by
  refine ⟨fun d => by cases d <;> rfl, rfl, ?_⟩
  intro eng c v ccrs d hc hv hconv
  have hval : validPair c v = true := by
    simp only [validPair, hc, hv, hconv]
    cases d <;> rfl
  obtain ⟨r, hr⟩ := processPair_fst_ok_of_valid eng c v hval
  refine ⟨r, (processPair eng c v).2, ?_⟩
  conv_lhs => rw [show processPair eng c v =
    ((processPair eng c v).1, (processPair eng c v).2) from rfl]
  rw [hr]

theorem c10_witness :
    ∃ r t, processPair exEngine exCanvas exRingLayer = (.ok r, t) :=
  c10_amended_dispatch_exhaustive.2.2 exEngine exCanvas exRingLayer exCrs
    GeometryDtype.ring rfl rfl rfl

end Zen3geo
